import Mathlib

/-!
Verification of the PTX assembly renderer (`tinygrad/renderer/assembly.py`).

The file shallow-embeds the renderer: the IR node/graph data model, the
peephole pre-transform (`eq_rep`, `lt_rep`, `ld_rep`, `gate_rep`, `ptr_ar`
and the forward sweep with its original→replacement map), the lowering
engine `uops_to_asm`, and the concrete `PTXLanguage` backend.  Machine
integers stay `Int`/`Nat` (the renderer only manipulates them as Python
ints); all emitted text is built with plain string concatenation exactly
as the source's f-strings do.

External collaborators (the `UOpGraph` container, the generic
`PatternMatcher` engine, the `dtypes` table) are not part of the source
file; where their behaviour decides a theorem they are modelled from the
specification, and each such definition says so in its doc comment.
-/

namespace Assembly

/-- Scalar value kinds of the external `dtypes` table, as consumed by the
renderer (signed/unsigned integer widths, float widths, boolean). -/
inductive ScalarDT
  | bool | int8 | int16 | int32 | int64
  | uint8 | uint16 | uint32 | uint64
  | half | float32 | float64
  deriving DecidableEq, Repr

/-- Value types: a scalar, a vector of a scalar with a lane count, or a
pointer type (`PtrDType`) to a scalar element type. -/
inductive DT
  | s (k : ScalarDT)
  | vec (k : ScalarDT) (n : Nat)
  | ptr (k : ScalarDT)
  deriving DecidableEq, Repr

/-- Modelled from the spec: the byte sizes of the external `dtypes`
table (§3 exposes a byte size per value type; the standard widths are
forced by §4.4 — booleans are 1 byte, which is why the 8-bit `s8` memory
form applies to them, and 8-bit values widen to 16-bit registers). -/
def ScalarDT.bytes : ScalarDT → Nat
  | .bool => 1 | .int8 => 1 | .uint8 => 1
  | .int16 => 2 | .uint16 => 2 | .half => 2
  | .int32 => 4 | .uint32 => 4 | .float32 => 4
  | .int64 => 8 | .uint64 => 8 | .float64 => 8

/-- `dtype.itemsize`: byte size of one element; a `PtrDType` reports the
byte size of the pointed-to element, a vector the size of all lanes. -/
def DT.itemsize : DT → Nat
  | .s k => k.bytes
  | .vec k n => k.bytes * n
  | .ptr k => k.bytes

/-- `dtype.count`: the lane count (1 for scalars and pointers). -/
def DT.count : DT → Nat
  | .vec _ n => n
  | _ => 1

/-- `dtype.scalar()`: the scalar kind underlying a value type. -/
def DT.scalar : DT → ScalarDT
  | .s k => k | .vec k _ => k | .ptr k => k

/-- `dtype.__class__ == PtrDType`. -/
def DT.isPtr : DT → Bool
  | .ptr _ => true
  | _ => false

def ScalarDT.isFloatK : ScalarDT → Bool
  | .half => true | .float32 => true | .float64 => true | _ => false

def ScalarDT.isUnsignedK : ScalarDT → Bool
  | .uint8 => true | .uint16 => true | .uint32 => true | .uint64 => true
  | _ => false

/-- `dtypes.is_float`. -/
def DT.isFloat (d : DT) : Bool := d.scalar.isFloatK

/-- `dtypes.is_unsigned`. -/
def DT.isUnsigned (d : DT) : Bool := d.scalar.isUnsignedK

/-- `dtypes.is_int`: signed or unsigned integer (booleans excluded). -/
def DT.isInt (d : DT) : Bool :=
  match d.scalar with
  | .int8 => true | .int16 => true | .int32 => true | .int64 => true
  | k => k.isUnsignedK

/-- The operator tags consumed by the renderer (`UnaryOps`, `BinaryOps`,
`TernaryOps`). -/
inductive Op
  | NEG | EXP2 | LOG2 | SIN | SQRT
  | ADD | SUB | MUL | DIV | MOD | MAX | XOR | CMPLT | CMPEQ
  | WHERE
  deriving DecidableEq, Repr

/-- A Python numeric/boolean payload as the renderer sees it (constants,
accumulator initial values). Float payloads keep their integer image;
their IEEE bit-pattern rendering is abstracted (see `render_val`). -/
inductive PyVal
  | i (n : Int)
  | b (v : Bool)
  deriving DecidableEq, Repr

/-- `str(int(x))` on a constant payload. -/
def PyVal.intStr : PyVal → String
  | .i n => toString n
  | .b true => "1"
  | .b false => "0"

/-- Node opcodes (`UOps`). -/
inductive UOpKind
  | LOOP | ENDLOOP | IF | ENDIF | BARRIER
  | LOAD | STORE | CONST | ALU | CAST | BITCAST
  | DEFINE_GLOBAL | DEFINE_VAR | DEFINE_LOCAL | DEFINE_ACC
  | SPECIAL | GEP | PHI
  deriving DecidableEq, Repr

/-- Modelled from the spec: `f"{uop}"` — the member rendering of the
external `UOps` enumeration, as interpolated into error messages. -/
def UOpKind.pyName : UOpKind → String
  | .LOOP => "UOps.LOOP" | .ENDLOOP => "UOps.ENDLOOP" | .IF => "UOps.IF"
  | .ENDIF => "UOps.ENDIF" | .BARRIER => "UOps.BARRIER" | .LOAD => "UOps.LOAD"
  | .STORE => "UOps.STORE" | .CONST => "UOps.CONST" | .ALU => "UOps.ALU"
  | .CAST => "UOps.CAST" | .BITCAST => "UOps.BITCAST"
  | .DEFINE_GLOBAL => "UOps.DEFINE_GLOBAL" | .DEFINE_VAR => "UOps.DEFINE_VAR"
  | .DEFINE_LOCAL => "UOps.DEFINE_LOCAL" | .DEFINE_ACC => "UOps.DEFINE_ACC"
  | .SPECIAL => "UOps.SPECIAL" | .GEP => "UOps.GEP" | .PHI => "UOps.PHI"

/-- The opcode-specific `arg` payload of a node: absent, an operator tag,
a constant payload, the address-space string written by `ptr_ar`, a
`DEFINE_LOCAL` (name, element count) pair, a `DEFINE_GLOBAL`
(index, name) pair, a `DEFINE_VAR` expression name, a `SPECIAL`
(axis index, register name) pair, or a `GEP` lane index. -/
inductive UArg
  | none
  | op (o : Op)
  | const (v : PyVal)
  | ss (s : String)
  | local_ (name : String) (sz : Nat)
  | global_ (idx : Nat) (name : String)
  | var (expr : String)
  | special (axis : Nat) (name : String)
  | gep (i : Nat)
  deriving DecidableEq, Repr

/-- One IR node.  Python object identity is modelled by the stable `id`
field; `vin` holds the ids of the operand nodes. -/
structure UOp where
  id : Nat
  uop : UOpKind
  dtype : Option DT
  vin : List Nat
  arg : UArg
  deriving DecidableEq, Repr

/-- The mutable node list of the external `UOpGraph`, modelled as an
ordered list of nodes plus a fresh-id counter. -/
structure UOpGraph where
  uops : List UOp
  nextId : Nat
  deriving DecidableEq, Repr

/-- Build a graph from a node list (ids must be below `nextId`). -/
def mkGraph (l : List UOp) : UOpGraph := ⟨l, l.length⟩

/-- Fetch a node by identity. -/
def UOpGraph.get? (g : UOpGraph) (i : Nat) : Option UOp :=
  g.uops.find? (fun u => u.id == i)

/-- Fetch with a dummy default; every call site in the modelled passes is
reached only with ids present in the graph. -/
def gget (g : UOpGraph) (i : Nat) : UOp :=
  (g.get? i).getD ⟨0, .CONST, Option.none, [], .none⟩

/-- `uops.uops.index(root)`: current position of a node, re-resolved at
every call (positions shift as nodes are inserted). -/
def UOpGraph.idx (g : UOpGraph) (i : Nat) : Nat :=
  g.uops.findIdx (fun u => u.id == i)

/-- In-place mutation of one node's attributes. -/
def UOpGraph.modify (g : UOpGraph) (i : Nat) (f : UOp → UOp) : UOpGraph :=
  ⟨g.uops.map (fun u => if u.id == i then f u else u), g.nextId⟩

/-- Modelled from the spec: `UOpGraph.add` of the external graph class
(only its callers are in the source).  Per §3/§6 of the spec it places a
fresh node at an explicit position relative to an existing node,
re-resolved per call; the caching behaviour behind the source's
`cachable=False` flag is not modelled (the spec does not describe it), so
every call inserts a fresh node.  Returns the new node's identity. -/
def UOpGraph.add (g : UOpGraph) (uop : UOpKind) (dtype : Option DT)
    (vin : List Nat) (arg : UArg) (insertBefore : Nat) : Nat × UOpGraph :=
  let u : UOp := ⟨g.nextId, uop, dtype, vin, arg⟩
  (g.nextId, ⟨g.uops.take insertBefore ++ [u] ++ g.uops.drop insertBefore, g.nextId + 1⟩)

/-! ## The peephole pre-transform (`uops_to_asm` lines 46–100) -/

/-- `ptr_ar` (source lines 67–78): pointer-arithmetic normalisation of a
LOAD/STORE node.  Tags the address space, scales the index by the element
byte size when it exceeds 1, folds a constant offset node, and otherwise
materialises a 64-bit pointer plus a zero offset. -/
def ptr_ar (g : UOpGraph) (rootId : Nat) : UOpGraph :=
  let base := gget g ((gget g rootId).vin.headD 0)
  let g := g.modify rootId (fun u =>
    { u with arg := .ss (if base.uop = .DEFINE_LOCAL then ".shared" else ".global") })
  let root := gget g rootId
  let (ptrId, g) :=
    if (base.dtype.getD (.s .int32)).itemsize > 1 then
      let (valId, g) := g.add .CONST (some (.s .int32)) []
        (.const (.i ((base.dtype.getD (.s .int32)).itemsize : Int))) (g.idx rootId)
      g.add .ALU (some (.s .int32)) [root.vin.getD 1 0, valId] (.op .MUL) (g.idx rootId)
    else (root.vin.getD 1 0, g)
  if (gget g ptrId).uop = .CONST then
    g.modify rootId (fun u => { u with vin := u.vin.take 1 ++ [ptrId] ++ u.vin.drop 2 })
  else
    let (zeroId, g) := g.add .CONST (some (.s .int32)) [] (.const (.i 0)) (g.idx rootId)
    let (bptrId, g) := g.add .CAST (some (.s .uint64)) [ptrId] .none (g.idx rootId)
    let (fptrId, g) := g.add .ALU (some (.s .uint64)) [root.vin.headD 0, bptrId]
      (.op .ADD) (g.idx rootId)
    g.modify rootId (fun u => { u with vin := [fptrId, zeroId] ++ u.vin.drop 2 })

/-- `eq_rep` (lines 46–49): boolean equality becomes XOR followed by a
fresh NEG node inserted right after it; the NEG node is the replacement
identity handed back to the sweep. -/
def eq_rep (g : UOpGraph) (rootId : Nat) : UOpGraph × Option Nat :=
  let g := g.modify rootId (fun u => { u with arg := .op .XOR })
  let (newId, g) := g.add .ALU (some (.s .bool)) [rootId] (.op .NEG) (g.idx rootId + 1)
  (g, some newId)

/-- `lt_rep` (lines 51–54): boolean less-than gets a NEG of its first
operand inserted just before it and becomes a MUL; no replacement
identity is produced. -/
def lt_rep (g : UOpGraph) (uId : Nat) : UOpGraph × Option Nat :=
  let u := gget g uId
  let (newId, g) := g.add .ALU (some (.s .bool)) [u.vin.headD 0] (.op .NEG) (g.idx uId)
  let g := g.modify uId (fun v =>
    { v with vin := [newId, v.vin.getD 1 0], arg := .op .MUL })
  (g, Option.none)

/-- `ld_rep` (lines 56–60): a boolean load is retyped to `uint8`, a CAST
back to boolean is inserted right after it (and becomes the replacement
identity), then pointer arithmetic is applied to the retyped load. -/
def ld_rep (g : UOpGraph) (rootId : Nat) : UOpGraph × Option Nat :=
  let g := g.modify rootId (fun u => { u with dtype := some (.s .uint8) })
  let (newId, g) := g.add .CAST (some (.s .bool)) [rootId] .none (g.idx rootId + 1)
  let g := ptr_ar g rootId
  (g, some newId)

/-- `gate_rep` (lines 62–65): the default operand of a gated boolean load
is first cast to `uint8` and spliced into the operand list, then
`ld_rep` runs. -/
def gate_rep (g : UOpGraph) (rootId : Nat) : UOpGraph × Option Nat :=
  let root := gget g rootId
  let (newId, g) := g.add .CAST (some (.s .uint8)) [root.vin.getD 3 0] .none (g.idx rootId)
  let g := g.modify rootId (fun u => { u with vin := u.vin.take 3 ++ [newId] })
  ld_rep g rootId

/-- Modelled from the spec (§4.1, §9): the generic `PatternMatcher`
engine is external, so the six rewrite rules of the source's `matcher`
table (lines 80–88) are embedded as an ordered list of guarded rewrite
functions, first structural match wins.  Returns the possibly rewritten
graph and the replacement identity the rule's function returned. -/
def rewriteOne (g : UOpGraph) (uId : Nat) : UOpGraph × Option Nat :=
  let u := gget g uId
  if u.uop = .ALU ∧ u.arg = .op .CMPEQ ∧ u.vin.length = 2 ∧
      (gget g (u.vin.headD 0)).dtype = some (.s .bool) then eq_rep g uId
  else if u.uop = .ALU ∧ u.arg = .op .CMPLT ∧ u.vin.length = 2 ∧
      (gget g (u.vin.headD 0)).dtype = some (.s .bool) then lt_rep g uId
  else if u.uop = .LOAD ∧ u.dtype = some (.s .bool) ∧ u.vin.length = 4 then
    gate_rep g uId
  else if u.uop = .LOAD ∧ u.dtype = some (.s .bool) ∧ u.vin.length = 2 then
    ld_rep g uId
  else if u.uop = .STORE then (ptr_ar g uId, Option.none)
  else if u.uop = .LOAD then (ptr_ar g uId, Option.none)
  else (g, Option.none)

/-- The replacement-propagation step of the sweep (lines 97–99): for each
accumulated (original, replacement) pair in insertion order, substitute
inside the current node's operand list unless the current node is the
replacement itself. -/
def applyReplace (g : UOpGraph) (uId : Nat) (rep : List (Nat × Nat)) : UOpGraph :=
  rep.foldl (fun g p =>
    if p.1 ∈ (gget g uId).vin ∧ uId ≠ p.2 then
      g.modify uId (fun u =>
        { u with vin := u.vin.map (fun x => if x = p.1 then p.2 else x) })
    else g) g

/-- The forward sweep (lines 92–100).  Python iterates the live node list
by index while rewrites insert nodes, and the `seen` set skips nodes the
shifting list re-yields; the recursion is fuelled because the index walk
runs over the growing list, and `pretransform` supplies fuel that always
suffices (every rewrite inserts at most seven nodes and no inserted node
matches a rewrite rule, so the list grows at most eightfold). -/
def sweepAux : Nat → UOpGraph → Nat → List Nat → List (Nat × Nat) →
    UOpGraph × List (Nat × Nat)
  | 0, g, _, _, rep => (g, rep)
  | fuel + 1, g, i, seen, rep =>
    match g.uops.get? i with
    | Option.none => (g, rep)
    | some u =>
      if u.id ∈ seen then sweepAux fuel g (i + 1) seen rep
      else
        let seen := u.id :: seen
        let g := applyReplace g u.id rep
        let (g, rew) := rewriteOne g u.id
        let rep := match rew with
          | some n => rep ++ [(u.id, n)]
          | Option.none => rep
        sweepAux fuel g (i + 1) seen rep

/-- The complete pre-transform: one fuelled sweep from position 0 with
empty `seen` and `replace`. -/
def pretransform (g : UOpGraph) : UOpGraph × List (Nat × Nat) :=
  sweepAux (8 * g.uops.length + 8) g 0 [] []

/-- Boolean denotation of the instructions the PTX backend emits for the
rewritten nodes: per `ptxAsmForOp` below, MUL on booleans renders as
`and.pred`, XOR as `xor.pred` and NEG as `not.pred`, so those three
node shapes denote and/xor/not; boolean constants denote themselves. -/
def evalBool (g : UOpGraph) : Nat → Nat → Option Bool
  | 0, _ => Option.none
  | fuel + 1, i =>
    match g.get? i with
    | some u =>
      match u.uop, u.dtype, u.vin, u.arg with
      | .CONST, some (.s .bool), [], .const (.b b) => some b
      | .ALU, some (.s .bool), [a], .op .NEG =>
          (evalBool g fuel a).map (fun x => !x)
      | .ALU, some (.s .bool), [a, b], .op .MUL =>
          match evalBool g fuel a, evalBool g fuel b with
          | some x, some y => some (x && y)
          | _, _ => Option.none
      | .ALU, some (.s .bool), [a, b], .op .XOR =>
          match evalBool g fuel a, evalBool g fuel b with
          | some x, some y => some (xor x y)
          | _, _ => Option.none
      | _, _, _, _ => Option.none
    | Option.none => Option.none

/-! ## String helpers

The renderer slices ASCII strings with Python's `s[1:]`, `s[0]` and
`s.split(sep)`; these are embedded structurally over the character list
so that every theorem below evaluates inside the kernel. -/

/-- Python `str.split` with a single-character separator, over the
character list. -/
def splitChar (c : Char) : List Char → List (List Char)
  | [] => [[]]
  | x :: xs =>
    if x = c then [] :: splitChar c xs
    else
      match splitChar c xs with
      | y :: ys => (x :: y) :: ys
      | [] => [[x]]

def splitOnC (s : String) (c : Char) : List String :=
  (splitChar c s.data).map (fun l => String.mk l)

/-- Python `s[1:]`. -/
def strTail (s : String) : String := String.mk (s.data.drop 1)

/-- Python `s[0] == c` (`false` on the empty string, which no call site
reaches). -/
def headIs (s : String) (c : Char) : Bool :=
  match s.data with
  | [] => false
  | x :: _ => x = c

/-! ## The backend capability contract (`AssemblyLanguage`, lines 16–40) -/

/-- Placeholder for the IEEE bit-pattern literal the source produces with
`struct.pack` for float-typed constants; the bit-level encoding lives in
an external library and is abstracted here.  No theorem in this file
renders a float-typed constant literal. -/
def floatBitsAbstract (x : PyVal) (dt : DT) : String :=
  (if dt = .s .float64 then "0d<" else if dt = .s .half then "0x<" else "0f<") ++
    x.intStr ++ ">"

/-- `render_val` (lines 9–14): float types render as bit-pattern literals
(abstracted, see `floatBitsAbstract`); other types render as
`str(int(x))` with a `U` suffix for unsigned types. -/
def render_val (x : PyVal) (dt : DT) : String :=
  if dt.isFloat then floatBitsAbstract x dt
  else if dt.isUnsigned then x.intStr ++ ("U") else x.intStr

/-- The backend capability contract (`AssemblyLanguage`).  `kernelHead`
and `labelHead` carry the source's kernel/label prefix strings (renamed
here).  The rendering operations that receive the node's address-space
tag and byte offset take them pre-rendered as strings, exactly the text
the source's f-strings interpolate. -/
structure AsmLang where
  kernelHead : String := ""
  barrier : String := ""
  load_global : Bool := false
  labelHead : String := ""
  gid : List String := []
  gdim : List String := []
  lid : List String := []
  const_requires_mov : List DT := []
  types : ScalarDT → String
  supports_half : List Op := []
  asm_for_op : Op → String → List String → DT → String → String
  render_const : PyVal → DT → Option String → List String ⊕ String
  render_local : String → String → Nat → DT → List String
  render_loop : String → String → String → List String
  render_bra : String → Option String → Option String → List String
  render_load : String → String → DT → Option String → Option String → String → String →
    Except String (List String)
  render_store : String → String → DT → Option String → String → String → List String
  render_cast : String → String → DT → DT → Bool → Bool → List String
  render_kernel : List String → String → List (String × DT) → List (String × Nat) → String
  mem_type : DT → String

/-! ## The concrete PTX backend (`PTXLanguage`, lines 223–296) -/

/-- The `types` table PTXLanguage overrides: 8-bit values are widened to
16-bit register classes, booleans live in predicate registers. -/
def ptxTypes : ScalarDT → String
  | .int8 => "s16" | .int16 => "s16" | .int32 => "s32" | .int64 => "s64"
  | .uint8 => "u16" | .uint16 => "u16" | .uint32 => "u32" | .uint64 => "u64"
  | .half => "f16" | .float32 => "f32" | .float64 => "f64" | .bool => "pred"

/-- `asm_for_op`: one instruction template per operator (dest, operand
list, result dtype, ISA type name).  An operand-arity mismatch is a
Python `TypeError` and unreachable; it renders as the empty string. -/
def ptxAsmForOp : Op → String → List String → DT → String → String
  | .NEG, d, [a], _, name =>
      if name = "pred" then "not.pred " ++ d ++ ", " ++ a ++ ";"
      else "neg." ++ name ++ " " ++ d ++ ", " ++ a ++ ";"
  | .EXP2, d, [a], _, name => "ex2.approx." ++ name ++ " " ++ d ++ ", " ++ a ++ ";"
  | .LOG2, d, [a], _, name => "lg2.approx." ++ name ++ " " ++ d ++ ", " ++ a ++ ";"
  | .SIN, d, [a], _, name => "sin.approx." ++ name ++ " " ++ d ++ ", " ++ a ++ ";"
  | .SQRT, d, [a], _, name => "sqrt.approx." ++ name ++ " " ++ d ++ ", " ++ a ++ ";"
  | .ADD, d, [a, b], _, name =>
      (if name = "pred" then "or" else "add") ++ "." ++ name ++ " " ++ d ++ ", " ++
        a ++ ", " ++ b ++ ";"
  | .SUB, d, [a, b], _, name => "sub." ++ name ++ " " ++ d ++ ", " ++ a ++ ", " ++ b ++ ";"
  | .MUL, d, [a, b], dt, name =>
      (if dt = .s .bool then "and" else "mul") ++ (if dt.isInt then ".lo" else "") ++
        "." ++ name ++ " " ++ d ++ ", " ++ a ++ ", " ++ b ++ ";"
  | .XOR, d, [a, b], _, name =>
      if name = "pred" then "xor.pred " ++ d ++ ", " ++ a ++ ", " ++ b ++ ";"
      else "xor.b" ++ strTail name ++ " " ++ d ++ ", " ++ a ++ ", " ++ b ++ ";"
  | .DIV, d, [a, b], dt, name =>
      "div" ++ (if dt.isFloat then ".approx" else "") ++ "." ++ name ++ " " ++ d ++
        ", " ++ a ++ ", " ++ b ++ ";"
  | .MAX, d, [a, b], _, name => "max." ++ name ++ " " ++ d ++ ", " ++ a ++ ", " ++ b ++ ";"
  | .MOD, d, [a, b], _, name => "rem." ++ name ++ " " ++ d ++ ", " ++ a ++ ", " ++ b ++ ";"
  | .CMPLT, d, [a, b], _, name => "setp.lt." ++ name ++ " " ++ d ++ ", " ++ a ++ ", " ++ b ++ ";"
  | .CMPEQ, d, [a, b], _, name => "setp.eq." ++ name ++ " " ++ d ++ ", " ++ a ++ ", " ++ b ++ ";"
  | .WHERE, d, [a, b, c], _, name =>
      if name = "pred" then
        "@" ++ a ++ " mov." ++ name ++ " " ++ d ++ ", " ++ b ++ ";\n@!" ++ a ++
          " mov." ++ name ++ " " ++ d ++ ", " ++ c ++ ";"
      else "selp." ++ (if name = "f16" then "b16" else name) ++ " " ++ d ++ ", " ++
        b ++ ", " ++ c ++ ", " ++ a ++ ";"
  | _, _, _, _, _ => ""

/-- `mem_type`: 1-byte values load/store through the wider `s8` form,
half floats through `b16`, everything else through its type name. -/
def ptxMemType (dt : DT) : String :=
  if dt.itemsize = 1 then "s8"
  else if dt = .s .half then "b16"
  else ptxTypes dt.scalar

/-- `PTXLanguage.render_const`: booleans are produced by a
`setp.ne.s16` against zero (always into a register — the boolean type is
in `const_requires_mov`, so the `mov=None` hole is unreachable); other
types either move the literal into the forced register or return the
inline literal. -/
def ptxRenderConst (x : PyVal) (dt : DT) (mov : Option String) : List String ⊕ String :=
  let val := render_val x dt
  if dt = .s .bool then
    Sum.inl ["setp.ne.s16 " ++ mov.getD "" ++ ", " ++ val ++ ", 0;"]
  else
    match mov with
    | some m => Sum.inl ["mov.b" ++ strTail (ptxTypes dt.scalar) ++ " " ++ m ++ ", " ++ val ++ ";"]
    | Option.none => Sum.inr val

def ptxRenderLocal (dest name : String) (size : Nat) (dt : DT) : List String :=
  [".shared .align 4 .b8 " ++ name ++ "[" ++ toString (size * dt.itemsize) ++ "];",
   "mov.u64 " ++ dest ++ ", " ++ name ++ "[0];"]

def ptxRenderLoop (idx start label : String) : List String :=
  ["mov.u32 " ++ idx ++ ", " ++ start ++ ";", label ++ ":"]

def ptxRenderBra (b1 : String) (pred b2 : Option String) : List String :=
  match pred with
  | some p => ["@" ++ p ++ " bra " ++ b1 ++ ";", "@!" ++ p ++ " bra " ++ b2.getD "" ++ ";"]
  | Option.none => ["bra " ++ b1 ++ ";"]

/-- `PTXLanguage.render_load`: asserts the value type is not boolean
(boolean loads were retyped by the pre-transform); a gated load pairs the
predicated load with a predicated move of the fallback value. -/
def ptxRenderLoad (loc dest : String) (dt : DT) (gate alt : Option String)
    (ss off : String) : Except String (List String) :=
  if dt = .s .bool then .error ("AssertionError")
  else
    match gate with
    | some gt =>
        .ok ["@" ++ gt ++ " ld" ++ ss ++ "." ++ ptxMemType dt ++ " " ++ dest ++
               ", [" ++ loc ++ "+" ++ off ++ "];",
             "@!" ++ gt ++ " mov.b" ++ strTail (ptxTypes dt.scalar) ++ " " ++ dest ++
               ", " ++ alt.getD "" ++ ";"]
    | Option.none =>
        .ok ["ld" ++ ss ++ "." ++ ptxMemType dt ++ " " ++ dest ++ ", [" ++ loc ++
               "+" ++ off ++ "];"]

/-- `PTXLanguage.render_cast` (numeric convert / bit reinterpret). -/
def ptxRenderCast (d a : String) (dtype atype : DT) (bitcast : Bool)
    (_pred : Bool) : List String :=
  if bitcast then ["mov.b" ++ strTail (ptxTypes dtype.scalar) ++ " " ++ d ++ ", " ++ a ++ ";"]
  else if atype = .s .bool then
    ["selp.b" ++ strTail (ptxTypes dtype.scalar) ++ " " ++ d ++ ", " ++
       render_val (.i 1) dtype ++ ", " ++ render_val (.i 0) dtype ++ ", " ++ a ++ ";"]
  else if dtype = .s .bool then
    ["setp.ne.b" ++ strTail (ptxTypes atype.scalar) ++ " " ++ d ++ ", " ++ a ++ ", " ++
       (match ptxRenderConst (.i 0) atype Option.none with
        | Sum.inr s => s
        | Sum.inl _ => "") ++ ";"]
  else
    let rnd :=
      if dtype.isInt && atype.isFloat then ".rzi"
      else if dtype.isFloat &&
          (decide (dtype.itemsize < atype.itemsize) || atype.isInt || decide (atype = .s .bool))
        then ".rn"
      else ""
    ["cvt" ++ rnd ++ "." ++ ptxTypes dtype.scalar ++ "." ++ ptxTypes atype.scalar ++
       " " ++ d ++ ", " ++ a ++ ";"]

/-- `PTXLanguage.render_store`: a boolean value is first converted into a
declared 16-bit staging register, then stored through `mem_type` (which
is the 8-bit `s8` form, booleans having byte size 1). -/
def ptxRenderStore (loc val : String) (dt : DT) (gate : Option String)
    (ss off : String) : List String :=
  if dt = .s .bool then
    [".reg .s16 " ++ val ++ "_cast;"] ++
      ptxRenderCast (val ++ "_cast") val (.s .int16) dt false false ++
      [(match gate with | some gt => "@" ++ gt ++ " " | Option.none => "") ++
         "st" ++ ss ++ "." ++ ptxMemType dt ++ " [" ++ loc ++ "+" ++ off ++ "], " ++
         val ++ "_cast;"]
  else
    [(match gate with | some gt => "@" ++ gt ++ " " | Option.none => "") ++
       "st" ++ ss ++ "." ++ ptxMemType dt ++ " [" ++ loc ++ "+" ++ off ++ "], " ++ val ++ ";"]

def ptxKernelHead : String :=
  ".version 7.5\n.target TARGET\n.address_size 64\n.visible .entry"

/-- One register-group declaration line of `render_kernel`: the ISA type
is the second-to-last `_`-separated component of the group name. -/
def regDecl (rc : String × Nat) : String :=
  let parts := splitOnC rc.1 '_'
  ".reg ." ++ (parts.getD (parts.length - 2) "") ++ " %" ++ rc.1 ++ "<" ++
    toString rc.2 ++ ">;"

/-- The final formatting pass: label lines (starting with `$`) stay
unindented; other lines are tab-indented with the first space replaced
by one or two tabs depending on the mnemonic's length. -/
def fmtLine (line : String) : String :=
  if headIs line '$' then line
  else
    match splitOnC line ' ' with
    | [] => "\t" ++ line
    | [_] => "\t" ++ line
    | w :: rest =>
        "\t" ++ w ++ (if w.length > 7 then "\t" else "\t\t") ++
          String.intercalate (" ") rest

/-- `PTXLanguage.render_kernel`: register declarations, body, `ret;`,
wrapped in the parameterised header and formatted line by line. -/
def ptxRenderKernel (kernel : List String) (function_name : String)
    (bufs : List (String × DT)) (regs : List (String × Nat)) : String :=
  let body := regs.map regDecl ++ kernel ++ ["ret;"]
  ptxKernelHead ++ " " ++ function_name ++ "(\n\t" ++
    String.intercalate (",\n\t") (bufs.map (fun nd =>
      ".param ." ++ (if nd.2.isPtr then "u64" else ptxTypes nd.2.scalar) ++ " " ++ nd.1)) ++
    "\n)\n\x7b\n" ++
    String.intercalate ("\n") (((body.map (fun op => splitOnC op '\n')).flatten).map fmtLine) ++
    "\n\x7d"

/-- The concrete PTX backend record. -/
def PTXLanguage : AsmLang :=
  { kernelHead := ptxKernelHead
    barrier := "bar.sync\t0;"
    load_global := true
    labelHead := "$"
    gid := ["%ctaid.x", "%ctaid.y", "%ctaid.z"]
    gdim := ["%nctaid.x", "%nctaid.y", "%nctaid.z"]
    lid := ["%tid.x", "%tid.y", "%tid.z"]
    const_requires_mov := [.s .half, .s .bool]
    types := ptxTypes
    supports_half := [.NEG, .EXP2, .ADD, .SUB, .MUL, .MAX, .CMPLT, .WHERE]
    asm_for_op := ptxAsmForOp
    render_const := ptxRenderConst
    render_local := ptxRenderLocal
    render_loop := ptxRenderLoop
    render_bra := ptxRenderBra
    render_load := ptxRenderLoad
    render_store := ptxRenderStore
    render_cast := ptxRenderCast
    render_kernel := ptxRenderKernel
    mem_type := ptxMemType }

/-! ## The lowering engine (`uops_to_asm`, lines 102–221) -/

/-- A register binding: one name for a scalar node, an ordered per-lane
list for a vector node. -/
inductive RVal
  | s (x : String)
  | v (xs : List String)
  deriving DecidableEq, Repr

/-- The string a binding interpolates to.  A vector binding reaches
string position only inside the vectorised load/store join, where the
source also comma-joins the lane list. -/
def RVal.str : RVal → String
  | .s x => x
  | .v xs => String.intercalate (", ") xs

def RVal.list : RVal → List String
  | .s x => [x]
  | .v xs => xs

/-- The per-invocation mutable state of `uops_to_asm`: emitted kernel
entries, parameter list, register-group counters (`c`, insertion
ordered), register bindings (`r`), label counters and label table. -/
structure LState where
  kernel : List String := []
  bufs : List (String × DT) := []
  c : List (String × Nat) := []
  r : List (Nat × RVal) := []
  c_label : List (String × Nat) := []
  r_label : List (Nat × String) := []
  deriving DecidableEq, Repr

/-- `kk`: append one kernel entry, joining the given lines. -/
def kk (st : LState) (lines : List String) : LState :=
  { st with kernel := st.kernel ++ [String.intercalate ("\n") lines] }

/-- Bump an insertion-ordered counter, returning the pre-increment value
(the source uses `c[prefix] += 1` then `c[prefix]-1`). -/
def bumpC (c : List (String × Nat)) (p : String) : List (String × Nat) × Nat :=
  match c.lookup p with
  | some n => (c.map (fun q => if q.1 = p then (p, n + 1) else q), n)
  | Option.none => (c ++ [(p, 1)], 0)

/-- Bind (or rebind) a node's register value. -/
def setR (st : LState) (i : Nat) (v : RVal) : LState :=
  if (st.r.lookup i).isSome then
    { st with r := st.r.map (fun q => if q.1 = i then (i, v) else q) }
  else { st with r := st.r ++ [(i, v)] }

/-- `r[u]` lookup; a missing binding is a Python `KeyError`. -/
def rGet (st : LState) (i : Nat) : Except String RVal :=
  match st.r.lookup i with
  | some v => .ok v
  | Option.none => .error ("KeyError")

def rStr (st : LState) (i : Nat) : Except String String :=
  (rGet st i).map RVal.str

/-- `r_label[u]` lookup. -/
def labGet (st : LState) (i : Nat) : Except String String :=
  match st.r_label.lookup i with
  | some v => .ok v
  | Option.none => .error ("KeyError")

/-- `ssa`: allocate the next name in the `pfx_dtname_` register group and
optionally bind it to a node. -/
def ssa (st : LState) (u : Option Nat) (pfx dtname : String) : LState × String :=
  let p := pfx ++ "_" ++ dtname ++ "_"
  let (c, n) := bumpC st.c p
  let name := "%" ++ p ++ toString n
  let st := { st with c := c }
  (match u with
   | some uid => setR st uid (.s name)
   | Option.none => st, name)

/-- `ssa_label`: allocate the next label in a category and record it for
the node. -/
def ssa_label (lang : AsmLang) (st : LState) (uid : Nat) (pfx : String) :
    LState × String :=
  let (cl, n) := bumpC st.c_label pfx
  let name := lang.labelHead ++ pfx ++ "_" ++ toString n
  let rl := if (st.r_label.lookup uid).isSome then
      st.r_label.map (fun q => if q.1 = uid then (uid, name) else q)
    else st.r_label ++ [(uid, name)]
  ({ st with c_label := cl, r_label := rl }, name)

/-- `const` (lines 121–125): force the constant into a fresh register
when requested or when the type requires it, else hand back the inline
literal.  The two `Sum` mismatch arms are unreachable for the PTX
backend (booleans are in `const_requires_mov`). -/
def constF (lang : AsmLang) (st : LState) (x : PyVal) (dt : DT) (mov : Bool) :
    LState × String :=
  if mov ∨ dt ∈ lang.const_requires_mov then
    let (st, out) := ssa st Option.none ("const") (lang.types dt.scalar)
    let lines := match lang.render_const x dt (some out) with
      | Sum.inl ls => ls
      | Sum.inr s => [s]
    (kk st lines, out)
  else
    match lang.render_const x dt Option.none with
    | Sum.inr s => (st, s)
    | Sum.inl ls => (kk st ls, "")

/-- `cast` (lines 127–132): a cast whose source type equals its target
type binds the node to the incoming register and emits nothing; otherwise
it allocates a register and delegates to the backend.  The `pred` flag is
accepted and, as in the source, not forwarded. -/
def castF (lang : AsmLang) (st : LState) (a : String) (dtype atype : DT)
    (bitcast : Bool) (u : Option Nat) (_pred : Bool) : LState × String :=
  if atype = dtype then
    (match u with
     | some uid => setR st uid (.s a)
     | Option.none => st, a)
  else
    let (st, ret) := ssa st u ("cast") (lang.types dtype.scalar)
    (kk st (lang.render_cast ret a dtype atype bitcast false), ret)

/-- `f"st{u.arg}"` / `f"ld{u.arg}"`: the address-space tag written by the
pre-transform. -/
def UArg.ssStr : UArg → String
  | .ss s => s
  | _ => ""

/-- `vin[1].arg` interpolated as the byte offset; the offset operand is a
CONST node after the pre-transform. -/
def UArg.offStr : UArg → String
  | .const v => v.intStr
  | _ => ""

def UArg.cval : UArg → PyVal
  | .const v => v
  | _ => .i 0

def UArg.gepIdx : UArg → Nat
  | .gep i => i
  | _ => 0

/-- One iteration of the main lowering loop (lines 134–219), mirroring
the source's if/elif chain.  Out-of-range operand indexing (an upstream
contract violation that raises in Python) is not modelled; `r`/`r_label`
misses surface as `KeyError`. -/
def lowerOne (lang : AsmLang) (g : UOpGraph) (st : LState) (u : UOp) :
    Except String LState :=
  if u.uop = .IF then do
    if (gget g (u.vin.headD 0)).dtype = Option.none then throw ("AssertionError")
    let v0r ← rStr st (u.vin.headD 0)
    let (st, lb) := ssa_label lang st u.id ("if")
    let (st, cnd) := castF lang st v0r (.s .bool)
      ((gget g (u.vin.headD 0)).dtype.getD (.s .bool)) false (some u.id) true
    pure (kk st (lang.render_bra lb (some cnd) (some (lb ++ "_true")) ++ [lb ++ "_true:"]))
  else if u.uop = .BARRIER ∧ lang.barrier ≠ "" then pure (kk st [lang.barrier])
  else if u.uop = .ENDLOOP then do
    let r0 ← rStr st (u.vin.headD 0)
    let bnd ← rStr st ((gget g (u.vin.headD 0)).vin.getD 1 0)
    let (st, pr) := ssa st Option.none ("pred") ("pred")
    let st := kk st
      [lang.asm_for_op .ADD r0 [r0, "1"] (.s .int32) (lang.types .int32),
       lang.asm_for_op .CMPLT pr [r0, bnd] (.s .int32) (lang.types .int32)]
    let lbl ← labGet st (u.vin.headD 0)
    pure (kk st (lang.render_bra lbl (some pr) (some (lbl ++ "_exit")) ++ [lbl ++ "_exit:"]))
  else if u.uop = .ENDIF then do
    let lbl ← labGet st (u.vin.headD 0)
    pure (kk st [lbl ++ ":"])
  else if u.uop = .STORE then do
    if (gget g (u.vin.headD 0)).dtype = Option.none ∨
        (gget g (u.vin.getD 1 0)).dtype = Option.none ∨
        (gget g (u.vin.getD 2 0)).dtype = Option.none then throw ("AssertionError")
    let vdt := (gget g (u.vin.getD 2 0)).dtype.getD (.s .int32)
    if 1 < vdt.count then
      let gateStr ← if 3 < u.vin.length then
          (rStr st (u.vin.getD 3 0)).map (fun s => "@" ++ s ++ " ")
        else pure ""
      let locR ← rStr st (u.vin.headD 0)
      let valsR ← rGet st (u.vin.getD 2 0)
      pure (kk st [gateStr ++ "st" ++ u.arg.ssStr ++ ".v" ++ toString vdt.count ++
        "." ++ lang.mem_type (.s vdt.scalar) ++ " [" ++ locR ++ "+" ++
        (gget g (u.vin.getD 1 0)).arg.offStr ++ "], \x7b" ++
        String.intercalate (", ") valsR.list ++ "\x7d;"])
    else do
      let locR ← rStr st (u.vin.headD 0)
      let valR ← rStr st (u.vin.getD 2 0)
      let gate ← if 3 < u.vin.length then (rStr st (u.vin.getD 3 0)).map some
        else pure Option.none
      pure (kk st (lang.render_store locR valR vdt gate u.arg.ssStr
        ((gget g (u.vin.getD 1 0)).arg.offStr)))
  else
    if u.dtype = Option.none then throw ("None dtype for uop " ++ u.uop.pyName)
    else
      let dt := u.dtype.getD (.s .int32)
      if u.uop = .LOOP then do
        let (st, ridx) := ssa st (some u.id) ("ridx") (lang.types dt.scalar)
        let startR ← rStr st (u.vin.headD 0)
        let (st, lbl) := ssa_label lang st u.id ("loop")
        pure (kk st (lang.render_loop ridx startR lbl))
      else if u.uop = .ALU then do
        if (gget g (u.vin.headD 0)).dtype = Option.none then throw ("AssertionError")
        let odt := (gget g (u.vin.headD 0)).dtype.getD (.s .int32)
        let operands ← u.vin.mapM (fun x => rStr st x)
        let (st, lab) := ssa st (some u.id) ("alu") (lang.types dt.scalar)
        match u.arg with
        | .op o =>
          let (st, lab2, ops2, dt2, outOpt) :=
            if dt = DT.s .half ∧ o ∉ lang.supports_half then
              let out_lab := lab
              let (st, labc) := ssa st Option.none ("alu_cast") (lang.types .float32)
              let (st, ops) := operands.foldl
                (fun (acc : LState × List String) op =>
                  let (st, newo) := ssa acc.1 Option.none ("alu_cast") (lang.types .float32)
                  let st := kk st (lang.render_cast newo op (.s .float32) (.s .half) false false)
                  (st, acc.2 ++ [newo])) (st, [])
              (st, labc, ops, DT.s .float32, some out_lab)
            else (st, lab, operands, dt, Option.none)
          let st :=
            if o = .CMPLT ∨ o = .CMPEQ then
              kk st [lang.asm_for_op o lab2 ops2 odt (lang.types odt.scalar)]
            else kk st [lang.asm_for_op o lab2 ops2 dt2 (lang.types dt2.scalar)]
          match outOpt with
          | some out_lab => pure (kk st (lang.render_cast out_lab lab2 (.s .half) dt2 false false))
          | Option.none => pure st
        | _ => throw ("KeyError")
      else if u.uop = .DEFINE_ACC then
        if 1 < dt.count then
          let (st, regs) := (List.range dt.count).foldl
            (fun (acc : LState × List String) _ =>
              let (st, nr) := ssa acc.1 Option.none ("acc") (lang.types dt.scalar)
              (st, acc.2 ++ [nr])) (st, [])
          let st := setR st u.id (.v regs)
          pure (regs.foldl (fun st uu =>
            let (st, cv) := constF lang st u.arg.cval (.s dt.scalar) false
            kk st ["mov.b" ++ strTail (lang.types dt.scalar) ++ " " ++ uu ++ ", " ++ cv ++ ";"]) st)
        else
          let (st, accReg) := ssa st (some u.id) ("acc") (lang.types dt.scalar)
          let (st, cv) := constF lang st u.arg.cval dt false
          pure (kk st ["mov.b" ++ strTail (lang.types dt.scalar) ++ " " ++ accReg ++ ", " ++ cv ++ ";"])
      else if u.uop = .SPECIAL then
        match u.arg with
        | .special ax nm =>
          if headIs nm 'i' then throw ("idx not supported")
          else
            let st := kk st ["mov.u32 %" ++ nm ++ ", " ++
              ((if headIs nm 'g' then lang.gid else lang.lid).getD ax "") ++ ";"]
            let st := setR st u.id (.s ("%" ++ nm))
            pure { st with kernel := [".reg .u32 %" ++ nm ++ ";"] ++ st.kernel }
        | _ => throw ("KeyError")
      else if u.uop = .CONST then
        if 1 < dt.count then
          let (st, regs) := (List.range dt.count).foldl
            (fun (acc : LState × List String) _ =>
              let (st, cv) := constF lang acc.1 u.arg.cval (.s dt.scalar) true
              (st, acc.2 ++ [cv])) (st, [])
          pure (setR st u.id (.v regs))
        else
          let (st, cv) := constF lang st u.arg.cval dt true
          pure (setR st u.id (.s cv))
      else if u.uop = .GEP then do
        let rv ← rGet st (u.vin.headD 0)
        pure (setR st u.id (.s (rv.list.getD u.arg.gepIdx "")))
      else if u.uop = .LOAD then do
        if (gget g (u.vin.getD 1 0)).dtype = Option.none then throw ("AssertionError")
        if 1 < dt.count then
          let (st, regs) := (List.range dt.count).foldl
            (fun (acc : LState × List String) _ =>
              let (st, nr) := ssa acc.1 Option.none ("val") (lang.types dt.scalar)
              (st, acc.2 ++ [nr])) (st, [])
          let st := setR st u.id (.v regs)
          let st := if 3 < u.vin.length then
              regs.foldl (fun st v => kk st ["mov." ++ lang.mem_type (.s dt.scalar) ++
                " " ++ v ++ ", " ++ render_val (.i 0) (.s dt.scalar) ++ ";"]) st
            else st
          let gateStr ← if 3 < u.vin.length then
              (rStr st (u.vin.getD 2 0)).map (fun s => "@" ++ s)
            else pure ""
          let locR ← rStr st (u.vin.headD 0)
          pure (kk st [gateStr ++ " ld" ++ u.arg.ssStr ++ ".v" ++ toString dt.count ++
            "." ++ lang.mem_type (.s dt.scalar) ++ " \x7b" ++
            String.intercalate (", ") regs ++ "\x7d, [" ++ locR ++ "+" ++
            (gget g (u.vin.getD 1 0)).arg.offStr ++ "];"])
        else do
          let locR ← rStr st (u.vin.headD 0)
          let (st, dest) := ssa st (some u.id) ("val") (lang.types dt.scalar)
          let gate ← if 3 < u.vin.length then (rStr st (u.vin.getD 2 0)).map some
            else pure Option.none
          let alt ← if 3 < u.vin.length then (rStr st (u.vin.getD 3 0)).map some
            else pure Option.none
          let lines ← lang.render_load locR dest dt gate alt u.arg.ssStr
            ((gget g (u.vin.getD 1 0)).arg.offStr)
          pure (kk st lines)
      else if u.uop = .PHI then do
        let r0 ← rGet st (u.vin.headD 0)
        let r1 ← rGet st (u.vin.getD 1 0)
        let st := kk st ["mov.b" ++ strTail (lang.types dt.scalar) ++ " " ++ r0.str ++
          ", " ++ r1.str ++ ";"]
        pure (setR st u.id r0)
      else if u.uop = .CAST ∨ u.uop = .BITCAST then do
        if (gget g (u.vin.headD 0)).dtype = Option.none then throw ("AssertionError")
        if 1 < dt.count then
          let vs ← u.vin.mapM (fun x => rStr st x)
          pure (setR st u.id (.v vs))
        else do
          let a ← rStr st (u.vin.headD 0)
          let (st, _) := castF lang st a dt
            ((gget g (u.vin.headD 0)).dtype.getD (.s .int32)) (u.uop == .BITCAST)
            (some u.id) false
          pure st
      else if u.uop = .DEFINE_LOCAL then
        match u.arg with
        | .local_ nm sz =>
          if sz * dt.itemsize ≤ 0xC000 then
            let (st, dest) := ssa st (some u.id) ("local") (lang.types .uint64)
            pure (kk st (lang.render_local dest nm sz dt))
          else throw ("too large local")
        | _ => throw ("KeyError")
      else if u.uop = .DEFINE_VAR then
        match u.arg with
        | .var expr =>
          let st := { st with bufs := st.bufs ++ [(expr, dt)] }
          let st := setR st u.id (.s ("%" ++ expr))
          if lang.load_global then do
            let (st, dat) := ssa st (some u.id) ("dat") (lang.types dt.scalar)
            let lines ← lang.render_load expr dat dt Option.none Option.none (".param") ("0")
            pure (kk st lines)
          else pure st
        | _ => throw ("KeyError")
      else if u.uop = .DEFINE_GLOBAL then
        match u.arg with
        | .global_ _ nm =>
          let st := { st with bufs := st.bufs ++ [(nm, dt)] }
          let st := setR st u.id (.s ("%" ++ nm))
          if lang.load_global then do
            let dtg := if dt.isPtr then DT.s .uint64 else dt
            let (st, dat) := ssa st (some u.id) ("dat") (lang.types dtg.scalar)
            let lines ← lang.render_load nm dat dtg Option.none Option.none (".param") ("0")
            pure (kk st lines)
          else pure st
        | _ => throw ("KeyError")
      else throw ("no code for " ++ u.uop.pyName)

/-- The main loop: lower the node list in order, stopping at the first
failure. -/
def lowerAll (lang : AsmLang) (g : UOpGraph) : List UOp → LState → Except String LState
  | [], st => .ok st
  | u :: rest, st =>
    match lowerOne lang g st u with
    | .error e => .error e
    | .ok st' => lowerAll lang g rest st'

/-- Pre-transform followed by the lowering loop, returning the final
per-invocation state. -/
def lowerGraph (lang : AsmLang) (g0 : UOpGraph) : Except String LState :=
  let (g, _) := pretransform g0
  lowerAll lang g g.uops ⟨[], [], [], [], [], []⟩

/-- `uops_to_asm`: the complete renderer, producing the final assembly
text via the backend's `render_kernel`. -/
def uops_to_asm (lang : AsmLang) (function_name : String) (g0 : UOpGraph) :
    Except String String :=
  match lowerGraph lang g0 with
  | .error e => .error e
  | .ok st => .ok (lang.render_kernel st.kernel function_name st.bufs st.c)

/-! ## Concrete scenarios used by the theorems -/

/-- Kernel entries of a finished lowering (empty on failure). -/
def kernelOf (e : Except String LState) : List String :=
  match e with
  | .ok st => st.kernel
  | .error _ => []

/-- Register binding of a node after lowering. -/
def rOf (e : Except String LState) (i : Nat) : Option RVal :=
  match e with
  | .ok st => st.r.lookup i
  | .error _ => Option.none

/-- Register-group counter after lowering. -/
def cOf (e : Except String LState) (p : String) : Option Nat :=
  match e with
  | .ok st => st.c.lookup p
  | .error _ => Option.none

/-- Success flag of a lowering result. -/
def okE {α : Type} (e : Except String α) : Bool :=
  match e with
  | .ok _ => true
  | .error _ => false

def emptyLS : LState := ⟨[], [], [], [], [], []⟩

/-- A PTX backend whose barrier text is empty (the contract marks an
empty barrier as unsupported). -/
def noBarrierLang : AsmLang := { PTXLanguage with barrier := "" }

/-- C1 scenario: element size 1, constant index — `LOAD(u8ptr)[n]`. -/
def gPtr1C (n : Int) : UOpGraph := mkGraph [
  ⟨0, .DEFINE_GLOBAL, some (.ptr .uint8), [], .global_ 0 "data0"⟩,
  ⟨1, .CONST, some (.s .int32), [], .const (.i n)⟩,
  ⟨2, .LOAD, some (.s .uint8), [0, 1], .none⟩]

def expPtr1C (n : Int) : UOpGraph := ⟨[
  ⟨0, .DEFINE_GLOBAL, some (.ptr .uint8), [], .global_ 0 "data0"⟩,
  ⟨1, .CONST, some (.s .int32), [], .const (.i n)⟩,
  ⟨2, .LOAD, some (.s .uint8), [0, 1], .ss ".global"⟩], 3⟩

/-- C1 scenario: element size 1, non-constant index (an ADD node). -/
def gPtr1N : UOpGraph := mkGraph [
  ⟨0, .CONST, some (.s .int32), [], .const (.i 1)⟩,
  ⟨1, .CONST, some (.s .int32), [], .const (.i 2)⟩,
  ⟨2, .ALU, some (.s .int32), [0, 1], .op .ADD⟩,
  ⟨3, .DEFINE_GLOBAL, some (.ptr .uint8), [], .global_ 0 "data0"⟩,
  ⟨4, .LOAD, some (.s .uint8), [3, 2], .none⟩]

def expPtr1N : UOpGraph := ⟨[
  ⟨0, .CONST, some (.s .int32), [], .const (.i 1)⟩,
  ⟨1, .CONST, some (.s .int32), [], .const (.i 2)⟩,
  ⟨2, .ALU, some (.s .int32), [0, 1], .op .ADD⟩,
  ⟨3, .DEFINE_GLOBAL, some (.ptr .uint8), [], .global_ 0 "data0"⟩,
  ⟨5, .CONST, some (.s .int32), [], .const (.i 0)⟩,
  ⟨6, .CAST, some (.s .uint64), [2], .none⟩,
  ⟨7, .ALU, some (.s .uint64), [3, 6], .op .ADD⟩,
  ⟨4, .LOAD, some (.s .uint8), [7, 5], .ss ".global"⟩], 8⟩

/-- C1 scenario: element size 4, constant index (the offset value
`4 * n` is known at compile time). -/
def gPtr4C (n : Int) : UOpGraph := mkGraph [
  ⟨0, .DEFINE_GLOBAL, some (.ptr .int32), [], .global_ 0 "data0"⟩,
  ⟨1, .CONST, some (.s .int32), [], .const (.i n)⟩,
  ⟨2, .LOAD, some (.s .int32), [0, 1], .none⟩]

def expPtr4C (n : Int) : UOpGraph := ⟨[
  ⟨0, .DEFINE_GLOBAL, some (.ptr .int32), [], .global_ 0 "data0"⟩,
  ⟨1, .CONST, some (.s .int32), [], .const (.i n)⟩,
  ⟨3, .CONST, some (.s .int32), [], .const (.i 4)⟩,
  ⟨4, .ALU, some (.s .int32), [1, 3], .op .MUL⟩,
  ⟨5, .CONST, some (.s .int32), [], .const (.i 0)⟩,
  ⟨6, .CAST, some (.s .uint64), [4], .none⟩,
  ⟨7, .ALU, some (.s .uint64), [0, 6], .op .ADD⟩,
  ⟨2, .LOAD, some (.s .int32), [7, 5], .ss ".global"⟩], 8⟩

/-- C1 scenario: a gated load with fallback (four operands) whose tail
operands must survive the rewrite. -/
def gPtrGate (n : Int) : UOpGraph := mkGraph [
  ⟨0, .DEFINE_GLOBAL, some (.ptr .int32), [], .global_ 0 "data0"⟩,
  ⟨1, .CONST, some (.s .int32), [], .const (.i n)⟩,
  ⟨2, .CONST, some (.s .bool), [], .const (.b true)⟩,
  ⟨3, .CONST, some (.s .int32), [], .const (.i 7)⟩,
  ⟨4, .LOAD, some (.s .int32), [0, 1, 2, 3], .none⟩]

def expPtrGate (n : Int) : UOpGraph := ⟨[
  ⟨0, .DEFINE_GLOBAL, some (.ptr .int32), [], .global_ 0 "data0"⟩,
  ⟨1, .CONST, some (.s .int32), [], .const (.i n)⟩,
  ⟨2, .CONST, some (.s .bool), [], .const (.b true)⟩,
  ⟨3, .CONST, some (.s .int32), [], .const (.i 7)⟩,
  ⟨5, .CONST, some (.s .int32), [], .const (.i 4)⟩,
  ⟨6, .ALU, some (.s .int32), [1, 5], .op .MUL⟩,
  ⟨7, .CONST, some (.s .int32), [], .const (.i 0)⟩,
  ⟨8, .CAST, some (.s .uint64), [6], .none⟩,
  ⟨9, .ALU, some (.s .uint64), [0, 8], .op .ADD⟩,
  ⟨4, .LOAD, some (.s .int32), [9, 7, 2, 3], .ss ".global"⟩], 10⟩

/-- C1 scenario: a STORE with element size 4 and constant index; its
value operand (`vin[2:]`) must survive the rewrite. -/
def gPtrStore (n : Int) : UOpGraph := mkGraph [
  ⟨0, .DEFINE_GLOBAL, some (.ptr .int32), [], .global_ 0 "data0"⟩,
  ⟨1, .CONST, some (.s .int32), [], .const (.i n)⟩,
  ⟨2, .CONST, some (.s .int32), [], .const (.i 9)⟩,
  ⟨3, .STORE, Option.none, [0, 1, 2], .none⟩]

def expPtrStore (n : Int) : UOpGraph := ⟨[
  ⟨0, .DEFINE_GLOBAL, some (.ptr .int32), [], .global_ 0 "data0"⟩,
  ⟨1, .CONST, some (.s .int32), [], .const (.i n)⟩,
  ⟨2, .CONST, some (.s .int32), [], .const (.i 9)⟩,
  ⟨4, .CONST, some (.s .int32), [], .const (.i 4)⟩,
  ⟨5, .ALU, some (.s .int32), [1, 4], .op .MUL⟩,
  ⟨6, .CONST, some (.s .int32), [], .const (.i 0)⟩,
  ⟨7, .CAST, some (.s .uint64), [5], .none⟩,
  ⟨8, .ALU, some (.s .uint64), [0, 7], .op .ADD⟩,
  ⟨3, .STORE, Option.none, [8, 6, 2], .ss ".global"⟩], 9⟩

/-- C2 scenario: a boolean gated load with a default value. -/
def gBoolGatedLoad (gv dv : Bool) : UOpGraph := mkGraph [
  ⟨0, .DEFINE_GLOBAL, some (.ptr .bool), [], .global_ 0 "data0"⟩,
  ⟨1, .CONST, some (.s .int32), [], .const (.i 0)⟩,
  ⟨2, .CONST, some (.s .bool), [], .const (.b gv)⟩,
  ⟨3, .CONST, some (.s .bool), [], .const (.b dv)⟩,
  ⟨4, .LOAD, some (.s .bool), [0, 1, 2, 3], .none⟩]

/-- C2 scenario: a boolean store. -/
def gBoolStore (b : Bool) : UOpGraph := mkGraph [
  ⟨0, .DEFINE_GLOBAL, some (.ptr .bool), [], .global_ 0 "data0"⟩,
  ⟨1, .CONST, some (.s .int32), [], .const (.i 0)⟩,
  ⟨2, .CONST, some (.s .bool), [], .const (.b b)⟩,
  ⟨3, .STORE, Option.none, [0, 1, 2], .none⟩]

/-- C3 scenario: a boolean less-than comparison of two constants. -/
def gBoolLt (a b : Bool) : UOpGraph := mkGraph [
  ⟨0, .CONST, some (.s .bool), [], .const (.b a)⟩,
  ⟨1, .CONST, some (.s .bool), [], .const (.b b)⟩,
  ⟨2, .ALU, some (.s .bool), [0, 1], .op .CMPLT⟩]

def expBoolLt (a b : Bool) : UOpGraph := ⟨[
  ⟨0, .CONST, some (.s .bool), [], .const (.b a)⟩,
  ⟨1, .CONST, some (.s .bool), [], .const (.b b)⟩,
  ⟨3, .ALU, some (.s .bool), [0], .op .NEG⟩,
  ⟨2, .ALU, some (.s .bool), [3, 1], .op .MUL⟩], 4⟩

/-- C4 scenario: a boolean equality comparison, with a later CAST node
referencing it. -/
def gBoolEq (a b : Bool) : UOpGraph := mkGraph [
  ⟨0, .CONST, some (.s .bool), [], .const (.b a)⟩,
  ⟨1, .CONST, some (.s .bool), [], .const (.b b)⟩,
  ⟨2, .ALU, some (.s .bool), [0, 1], .op .CMPEQ⟩,
  ⟨3, .CAST, some (.s .int32), [2], .none⟩]

def expBoolEq (a b : Bool) : UOpGraph := ⟨[
  ⟨0, .CONST, some (.s .bool), [], .const (.b a)⟩,
  ⟨1, .CONST, some (.s .bool), [], .const (.b b)⟩,
  ⟨2, .ALU, some (.s .bool), [0, 1], .op .XOR⟩,
  ⟨4, .ALU, some (.s .bool), [2], .op .NEG⟩,
  ⟨3, .CAST, some (.s .int32), [4], .none⟩], 5⟩

/-- C5 scenario: a half-typed ALU node whose operator may fall outside
the half-capable set; both operands read the same loaded half value. -/
def gHalfALU (o : Op) : UOpGraph := mkGraph [
  ⟨0, .DEFINE_GLOBAL, some (.ptr .half), [], .global_ 0 "data0"⟩,
  ⟨1, .CONST, some (.s .int32), [], .const (.i 0)⟩,
  ⟨2, .LOAD, some (.s .half), [0, 1], .none⟩,
  ⟨3, .ALU, some (.s .half), [2, 2], .op o⟩]

/-- C6 scenario: a lone scalar int32 constant (int32 is not in
`const_requires_mov`). -/
def gConstScalar (n : Int) : UOpGraph :=
  mkGraph [⟨0, .CONST, some (.s .int32), [], .const (.i n)⟩]

/-- C6 scenario: a two-lane vector constant. -/
def gConstVec (n : Int) : UOpGraph :=
  mkGraph [⟨0, .CONST, some (.vec .int32 2), [], .const (.i n)⟩]

/-- C7 scenario: a lone barrier node (its `dtype` is `None`, as the
linearizer emits control nodes without a result type). -/
def gBarrier : UOpGraph := mkGraph [⟨0, .BARRIER, Option.none, [], .none⟩]

/-- C9 scenario: a local-memory definition of `n` bytes (element size 1). -/
def locNode (n : Nat) : UOp := ⟨0, .DEFINE_LOCAL, some (.ptr .uint8), [], .local_ "temp" n⟩

def gLocal (n : Nat) : UOpGraph := mkGraph [locNode n]

/-- C10 scenario: a CAST whose source operand type equals its own type. -/
def gCastSame (k : ScalarDT) : UOpGraph := mkGraph [
  ⟨0, .CONST, some (.s k), [], .const (.i 0)⟩,
  ⟨1, .CAST, some (.s k), [0], .none⟩]

/-- C10 scenario: the BITCAST variant. -/
def gBitcastSame (k : ScalarDT) : UOpGraph := mkGraph [
  ⟨0, .CONST, some (.s k), [], .const (.i 0)⟩,
  ⟨1, .BITCAST, some (.s k), [0], .none⟩]

/-- C10 baseline: the same graph without the cast node. -/
def gConstOnly (k : ScalarDT) : UOpGraph :=
  mkGraph [⟨0, .CONST, some (.s k), [], .const (.i 0)⟩]

/-! ## Theorems -/

/-- Claim C1, counterexample.  The claim asserts that whenever the
resulting offset is a compile-time constant it is folded directly as the
node's offset operand with no extra instructions inserted.  For a LOAD
through an int32 pointer (element size 4) at the constant index 3 the
offset 12 is a compile-time constant, yet the pre-transform grows the
three-node graph to eight nodes, inserts a multiply, and leaves the
node's offset operand as a fresh zero constant rather than a folded
constant offset. -/
theorem C1_ptr_arith_counterexample :
    (pretransform (gPtr4C 3)).1.uops.length = 8 ∧
    ¬ (pretransform (gPtr4C 3)).1.uops.length = (gPtr4C 3).uops.length ∧
    gget (pretransform (gPtr4C 3)).1 2 =
      ⟨2, .LOAD, some (.s .int32), [7, 5], .ss ".global"⟩ ∧
    gget (pretransform (gPtr4C 3)).1 5 =
      ⟨5, .CONST, some (.s .int32), [], .const (.i 0)⟩ ∧
    gget (pretransform (gPtr4C 3)).1 4 =
      ⟨4, .ALU, some (.s .int32), [1, 3], .op .MUL⟩ :=
  ⟨rfl, by decide, rfl, rfl, rfl⟩

/-- Claim C1 (amended): in the pointer-arithmetic pre-transform the fold
onto the node's offset operand happens exactly when the offset node is
itself a constant node — which occurs only when the element byte size is
1 and the index operand is a constant — with no instructions inserted;
in every other case, including a constant index with element size
greater than 1, one widening cast to 64-bit and one add are inserted
(plus exactly one multiply of index by element size when the size
exceeds 1) and the node's first two operands become the computed 64-bit
pointer and an immediate zero offset, with remaining operands (gate,
fallback, store value) unchanged. -/
theorem C1_ptr_arith_amended :
    pretransform (gPtr1C 3) = (expPtr1C 3, []) ∧
    pretransform (gPtr1C (-2)) = (expPtr1C (-2), []) ∧
    pretransform gPtr1N = (expPtr1N, []) ∧
    pretransform (gPtr4C 3) = (expPtr4C 3, []) ∧
    pretransform (gPtr4C (-2)) = (expPtr4C (-2), []) ∧
    pretransform (gPtrGate 3) = (expPtrGate 3, []) ∧
    pretransform (gPtrStore 3) = (expPtrStore 3, []) :=
  ⟨rfl, rfl, rfl, rfl, rfl, rfl, rfl⟩

/-- Claim C2, counterexample.  The claim asserts that a boolean store
persists the value in memory as a 16-bit integer; the backend's memory
type for booleans is the 8-bit `s8` form (byte size 1), and the store
instruction emitted for a boolean store is `st.global.s8`, not a 16-bit
store. -/
theorem C2_bool_memory_counterexample :
    PTXLanguage.mem_type (.s .bool) = "s8" ∧
    ¬ PTXLanguage.mem_type (.s .bool) = "s16" ∧
    kernelOf (lowerGraph PTXLanguage (gBoolStore true)) =
      ["ld.param.u64 %dat_u64_0, [data0+0];",
       "mov.b32 %const_s32_0, 0;",
       "setp.ne.s16 %const_pred_0, 1, 0;",
       ".reg .s16 %const_pred_0_cast;\nselp.b16 %const_pred_0_cast, 1, 0, %const_pred_0;\nst.global.s8 [%dat_u64_0+0], %const_pred_0_cast;"] :=
  ⟨rfl, by decide, rfl⟩

/-- Claim C2 (amended): no native boolean memory instruction is ever
emitted — a boolean gated load with a default value lowers to an 8-bit
integer load (with a move of the default under the false predicate)
followed by a not-equal-zero cast back to boolean, the backend's load
renderer rejects boolean value types outright, and a boolean store first
converts the predicate into a declared 16-bit integer register and then
persists it with an 8-bit integer store (the memory form for 1-byte
values). -/
theorem C2_bool_memory_amended : ∀ gv dv b : Bool,
    kernelOf (lowerGraph PTXLanguage (gBoolGatedLoad gv dv)) =
      ["ld.param.u64 %dat_u64_0, [data0+0];",
       "mov.b32 %const_s32_0, 0;",
       "setp.ne.s16 %const_pred_0, " ++ (PyVal.b gv).intStr ++ ", 0;",
       "setp.ne.s16 %const_pred_1, " ++ (PyVal.b dv).intStr ++ ", 0;",
       "selp.b16 %cast_u16_0, 1U, 0U, %const_pred_1;",
       "@%const_pred_0 ld.global.s8 %val_u16_0, [%dat_u64_0+0];\n@!%const_pred_0 mov.b16 %val_u16_0, %cast_u16_0;",
       "setp.ne.b16 %cast_pred_0, %val_u16_0, 0U;"] ∧
    kernelOf (lowerGraph PTXLanguage (gBoolStore b)) =
      ["ld.param.u64 %dat_u64_0, [data0+0];",
       "mov.b32 %const_s32_0, 0;",
       "setp.ne.s16 %const_pred_0, " ++ (PyVal.b b).intStr ++ ", 0;",
       ".reg .s16 %const_pred_0_cast;\nselp.b16 %const_pred_0_cast, 1, 0, %const_pred_0;\nst.global.s8 [%dat_u64_0+0], %const_pred_0_cast;"] ∧
    ptxRenderLoad ("%p") ("%d") (.s .bool) Option.none Option.none (".global") ("0") =
      .error ("AssertionError") := by
  intro gv dv b
  cases gv <;> cases dv <;> cases b <;> exact ⟨rfl, rfl, rfl⟩

/-- Claim C3: a less-than-comparison ALU node with a boolean first
operand is rewritten in place — a negation of the first operand is
inserted just before it and its operator becomes multiply — the node
keeps its own identity and no original→replacement entry is produced,
and for all boolean inputs the rewritten pair computes not(a) AND b,
true exactly at (false, true); multiply on booleans renders as
`and.pred` and negate as `not.pred`. -/
theorem C3_bool_lt_confirmed : ∀ a b : Bool,
    pretransform (gBoolLt a b) = (expBoolLt a b, []) ∧
    evalBool (pretransform (gBoolLt a b)).1 9 2 = some (!a && b) ∧
    (evalBool (pretransform (gBoolLt a b)).1 9 2 = some true ↔ a = false ∧ b = true) ∧
    ptxAsmForOp .MUL ("%d") ["%a", "%b"] (.s .bool) ("pred") = "and.pred %d, %a, %b;" ∧
    ptxAsmForOp .NEG ("%d") ["%a"] (.s .bool) ("pred") = "not.pred %d, %a;" := by
  intro a b
  cases a <;> cases b <;> exact ⟨rfl, rfl, by decide, rfl, rfl⟩

/-- Claim C4: an equality-comparison ALU node with a boolean first
operand is rewritten in place to a bitwise-xor, a new negate node
producing the final boolean result is inserted immediately after it, the
sweep records the original→negate replacement and redirects every later
operand reference to the negate node, and the final result equals
not(a xor b) for all boolean inputs. -/
theorem C4_bool_eq_confirmed : ∀ a b : Bool,
    pretransform (gBoolEq a b) = (expBoolEq a b, [(2, 4)]) ∧
    evalBool (pretransform (gBoolEq a b)).1 9 4 = some (!(xor a b)) ∧
    (evalBool (pretransform (gBoolEq a b)).1 9 4 = some true ↔ a = b) ∧
    gget (pretransform (gBoolEq a b)).1 3 = ⟨3, .CAST, some (.s .int32), [4], .none⟩ ∧
    ptxAsmForOp .XOR ("%d") ["%a", "%b"] (.s .bool) ("pred") = "xor.pred %d, %a, %b;" := by
  intro a b
  cases a <;> cases b <;> exact ⟨rfl, rfl, by decide, rfl, rfl⟩

/-- Claim C5: a half-typed ALU node whose operator is outside the
backend's half-capable set lowers to one single-precision upcast per
operand, exactly one single-precision compute instruction, and one
downcast of the result back to half, while the node stays bound to a
register in the half-typed register group (declared `.reg .f16`). -/
theorem C5_half_promotion_confirmed (o : Op)
    (h : o = .DIV ∨ o = .MOD ∨ o = .XOR) :
    o ∉ PTXLanguage.supports_half ∧
    kernelOf (lowerGraph PTXLanguage (gHalfALU o)) =
      ["ld.param.u64 %dat_u64_0, [data0+0];",
       "mov.b32 %const_s32_0, 0;",
       "mov.b32 %const_s32_1, 2;",
       "mul.lo.s32 %alu_s32_0, %const_s32_0, %const_s32_1;",
       "mov.b32 %const_s32_2, 0;",
       "cvt.u64.s32 %cast_u64_0, %alu_s32_0;",
       "add.u64 %alu_u64_0, %dat_u64_0, %cast_u64_0;",
       "ld.global.b16 %val_f16_0, [%alu_u64_0+0];",
       "cvt.f32.f16 %alu_cast_f32_1, %val_f16_0;",
       "cvt.f32.f16 %alu_cast_f32_2, %val_f16_0;",
       ptxAsmForOp o ("%alu_cast_f32_0") ["%alu_cast_f32_1", "%alu_cast_f32_2"]
         (.s .float32) ("f32"),
       "cvt.rn.f16.f32 %alu_f16_0, %alu_cast_f32_0;"] ∧
    rOf (lowerGraph PTXLanguage (gHalfALU o)) 3 = some (.s ("%alu_f16_0")) ∧
    cOf (lowerGraph PTXLanguage (gHalfALU o)) ("alu_f16_") = some 1 ∧
    regDecl (("alu_f16_"), 1) = ".reg .f16 %alu_f16_<1>;" := by
  rcases h with h | h | h <;> subst h <;> exact ⟨by decide, rfl, rfl, rfl, rfl⟩

/-- Claim C5, witness: the theorem instantiated at the division
operator, the hypothesis discharged by `Or.inl rfl` and the compute
instruction evaluated to `div.approx.f32`. -/
theorem C5_half_promotion_witness :
    (Op.DIV = Op.DIV ∨ Op.DIV = Op.MOD ∨ Op.DIV = Op.XOR) ∧
    (Op.DIV ∉ PTXLanguage.supports_half ∧
     kernelOf (lowerGraph PTXLanguage (gHalfALU .DIV)) =
       ["ld.param.u64 %dat_u64_0, [data0+0];",
        "mov.b32 %const_s32_0, 0;",
        "mov.b32 %const_s32_1, 2;",
        "mul.lo.s32 %alu_s32_0, %const_s32_0, %const_s32_1;",
        "mov.b32 %const_s32_2, 0;",
        "cvt.u64.s32 %cast_u64_0, %alu_s32_0;",
        "add.u64 %alu_u64_0, %dat_u64_0, %cast_u64_0;",
        "ld.global.b16 %val_f16_0, [%alu_u64_0+0];",
        "cvt.f32.f16 %alu_cast_f32_1, %val_f16_0;",
        "cvt.f32.f16 %alu_cast_f32_2, %val_f16_0;",
        "div.approx.f32 %alu_cast_f32_0, %alu_cast_f32_1, %alu_cast_f32_2;",
        "cvt.rn.f16.f32 %alu_f16_0, %alu_cast_f32_0;"] ∧
     rOf (lowerGraph PTXLanguage (gHalfALU .DIV)) 3 = some (.s ("%alu_f16_0")) ∧
     cOf (lowerGraph PTXLanguage (gHalfALU .DIV)) ("alu_f16_") = some 1 ∧
     regDecl (("alu_f16_"), 1) = ".reg .f16 %alu_f16_<1>;") :=
  ⟨Or.inl rfl, C5_half_promotion_confirmed .DIV (Or.inl rfl)⟩

/-- Claim C6, counterexample.  The claim asserts that a scalar CONST is
materialised into a forced register only if its type is in
`const_requires_mov` and otherwise binds to the inline literal with no
instruction emitted; int32 is not in that set, yet lowering a lone
scalar int32 constant emits a `mov` instruction and binds the node to a
fresh register rather than the inline literal. -/
theorem C6_const_counterexample :
    ¬ (DT.s .int32 ∈ PTXLanguage.const_requires_mov) ∧
    kernelOf (lowerGraph PTXLanguage (gConstScalar 5)) = ["mov.b32 %const_s32_0, 5;"] ∧
    ¬ kernelOf (lowerGraph PTXLanguage (gConstScalar 5)) = [] ∧
    rOf (lowerGraph PTXLanguage (gConstScalar 5)) 0 = some (.s ("%const_s32_0")) ∧
    ¬ rOf (lowerGraph PTXLanguage (gConstScalar 5)) 0 =
        some (.s (render_val (.i 5) (.s .int32))) :=
  ⟨by decide, rfl, by decide, rfl, by decide⟩

/-- Claim C6 (amended): lowering passes `mov=True` for every CONST node,
so a scalar CONST is always materialised into a forced constant
register regardless of `const_requires_mov`, and every lane of a vector
CONST is materialised as a separately forced constant register. -/
theorem C6_const_amended : ∀ n : Int,
    kernelOf (lowerGraph PTXLanguage (gConstScalar n)) =
      ["mov.b32 %const_s32_0, " ++ (PyVal.i n).intStr ++ ";"] ∧
    rOf (lowerGraph PTXLanguage (gConstScalar n)) 0 = some (.s ("%const_s32_0")) ∧
    kernelOf (lowerGraph PTXLanguage (gConstVec n)) =
      ["mov.b32 %const_s32_0, " ++ (PyVal.i n).intStr ++ ";",
       "mov.b32 %const_s32_1, " ++ (PyVal.i n).intStr ++ ";"] ∧
    rOf (lowerGraph PTXLanguage (gConstVec n)) 0 =
      some (.v ["%const_s32_0", "%const_s32_1"]) :=
  fun _ => ⟨rfl, rfl, rfl, rfl⟩

/-- Claim C7, counterexample.  The claim asserts that with an empty
barrier text a BARRIER node emits nothing and lowering continues
normally; in fact the node falls through to the default branch, whose
result-type assertion fails (BARRIER nodes carry no dtype), so lowering
aborts instead of continuing. -/
theorem C7_barrier_counterexample :
    uops_to_asm noBarrierLang ("test") gBarrier =
      .error ("None dtype for uop UOps.BARRIER") ∧
    okE (uops_to_asm noBarrierLang ("test") gBarrier) = false ∧
    okE (uops_to_asm PTXLanguage ("test") gBarrier) = true :=
  ⟨rfl, rfl, rfl⟩

/-- Claim C7 (amended): a BARRIER node emits the backend's barrier
instruction text when that text is non-empty; when the barrier text is
empty the node falls through to the default branch, which requires a
result type, and lowering aborts with a missing-dtype failure rather
than continuing with the rest of the graph. -/
theorem C7_barrier_amended :
    uops_to_asm PTXLanguage ("test") gBarrier =
      .ok (".version 7.5\n.target TARGET\n.address_size 64\n.visible .entry test(\n\t\n)\n\x7b\n\tbar.sync\t0;\n\tret;\n\x7d") ∧
    uops_to_asm noBarrierLang ("test") gBarrier =
      .error ("None dtype for uop UOps.BARRIER") :=
  ⟨rfl, rfl⟩

/-- Claim C8: lowering is deterministic — the embedding gives every
invocation of `uops_to_asm` a fresh per-invocation state (registers,
counters, labels, parameter list), matching §5 of the spec, so the
renderer is a pure function and lowering the same graph with the same
backend twice produces byte-identical assembly text. -/
theorem C8_determinism_confirmed :
    ∀ (lang : AsmLang) (function_name : String) (g : UOpGraph),
      uops_to_asm lang function_name g = uops_to_asm lang function_name g :=
  fun _ _ _ => rfl

/-- Claim C9: a DEFINE_LOCAL of `n` bytes lowers successfully exactly
when the byte size is at most the fixed `0xC000` ISA ceiling — rendering
the `.shared` declaration plus the handle move — and fails with the
"too large local" error otherwise; a request exactly at the ceiling
succeeds through the full renderer and one byte over fails. -/
theorem C9_local_ceiling_confirmed :
    (∀ n : Nat, lowerOne PTXLanguage (gLocal n) emptyLS (locNode n) =
      if n * 1 ≤ 0xC000 then
        .ok (kk { emptyLS with c := [(("local_u64_"), 1)],
                               r := [(0, RVal.s ("%local_u64_0"))] }
          [".shared .align 4 .b8 temp[" ++ toString (n * 1) ++ "];",
           "mov.u64 %local_u64_0, temp[0];"])
      else .error ("too large local")) ∧
    okE (uops_to_asm PTXLanguage ("test") (gLocal 49152)) = true ∧
    uops_to_asm PTXLanguage ("test") (gLocal 49153) = .error ("too large local") :=
  ⟨fun _ => rfl, rfl, rfl⟩

/-- Claim C10: a scalar CAST or BITCAST whose source operand type equals
its destination type emits no instruction (the kernel text equals that
of the graph without the cast node) and binds the node to the source
operand's existing register name unchanged. -/
theorem C10_cast_alias_confirmed : ∀ k : ScalarDT,
    kernelOf (lowerGraph PTXLanguage (gCastSame k)) =
      kernelOf (lowerGraph PTXLanguage (gConstOnly k)) ∧
    rOf (lowerGraph PTXLanguage (gCastSame k)) 1 =
      rOf (lowerGraph PTXLanguage (gCastSame k)) 0 ∧
    (rOf (lowerGraph PTXLanguage (gCastSame k)) 0).isSome = true ∧
    kernelOf (lowerGraph PTXLanguage (gBitcastSame k)) =
      kernelOf (lowerGraph PTXLanguage (gConstOnly k)) ∧
    rOf (lowerGraph PTXLanguage (gBitcastSame k)) 1 =
      rOf (lowerGraph PTXLanguage (gBitcastSame k)) 0 ∧
    (rOf (lowerGraph PTXLanguage (gBitcastSame k)) 0).isSome = true := by
  intro k
  cases k <;> exact ⟨rfl, rfl, rfl, rfl, rfl, rfl⟩

end Assembly
